import Mathlib

/-!
Verification development for the anti-collision kernel of the fiber
positioner petal (`petal/poscollider.pyx`).

The embedding is a faithful shallow translation of the Cython source into
Lean over exact rational coordinates: the polygon kernel (`PosPoly`,
`_segments_intersect`, `_polygons_collide`, `_bounding_boxes_collide`,
`collides_with`), the polygon constructor `PosPoly.__cinit__`, the sweep
builder (`PosSweep.fill_exact`, `PosSweep.quantize`, `PosSweep.extend`,
`PosSweep.was_moving`), the neighbor identification of
`PosCollider._identify_neighbors`, the fixed-envelope spatial classifier
`PosCollider.spatial_collision_with_fixed`, and the spacetime driver
`PosCollider.spacetime_collision` in both its two-positioner and
fixed-envelope modes.  The geometric collision classifier between two
placed positioners is passed to the driver as an explicit function
parameter, exactly at the call boundary where the source invokes
`spatial_collision_between_positioners` / `spatial_collision_with_fixed`.
-/

/- Rational arithmetic is sealed in core; re-open it for kernel evaluation so
that concrete runs of the embedded code can be checked by `decide`. -/
attribute [local semireducible] Rat.add Rat.sub Rat.mul Rat.inv

/-! ## Polygon kernel -/

/-- `_c_max` from poscollider.pyx: maximum of a c-array of doubles,
`0.0` for an empty array. -/
def c_max : List ℚ → ℚ
  | [] => 0
  | h :: t => t.foldl max h

/-- `_c_min` from poscollider.pyx: minimum of a c-array of doubles,
`0.0` for an empty array. -/
def c_min : List ℚ → ℚ
  | [] => 0
  | h :: t => t.foldl min h

/-- The determinant `delta = dx_B * dy_A - dy_B * dx_A` computed by
`_segments_intersect` for segments `(A1,A2)` and `(B1,B2)`. -/
def seg_delta (A1 A2 B1 B2 : ℚ × ℚ) : ℚ :=
  (B2.1 - B1.1) * (A2.2 - A1.2) - (B2.2 - B1.2) * (A2.1 - A1.1)

/-- The parameter `s = (dx_A*(B1.y - A1.y) + dy_A*(A1.x - B1.x)) / delta`
computed by `_segments_intersect`. -/
def seg_s (A1 A2 B1 B2 : ℚ × ℚ) : ℚ :=
  ((A2.1 - A1.1) * (B1.2 - A1.2) + (A2.2 - A1.2) * (A1.1 - B1.1)) / seg_delta A1 A2 B1 B2

/-- The parameter `t = (dx_B*(A1.y - B1.y) + dy_B*(B1.x - A1.x)) / (-delta)`
computed by `_segments_intersect`. -/
def seg_t (A1 A2 B1 B2 : ℚ × ℚ) : ℚ :=
  ((B2.1 - B1.1) * (A1.2 - B1.2) + (B2.2 - B1.2) * (B1.1 - A1.1)) / (- seg_delta A1 A2 B1 B2)

/-- `_segments_intersect` from poscollider.pyx: parallel segments
(`delta == 0`) never intersect; otherwise the segments intersect iff
`0 <= s <= 1 and 0 <= t <= 1`. -/
def segments_intersect (A1 A2 B1 B2 : ℚ × ℚ) : Bool :=
  if seg_delta A1 A2 B1 B2 = 0 then
    false
  else
    decide (0 ≤ seg_s A1 A2 B1 B2 ∧ seg_s A1 A2 B1 B2 ≤ 1 ∧
            0 ≤ seg_t A1 A2 B1 B2 ∧ seg_t A1 A2 B1 B2 ≤ 1)

/-- `_polygons_collide` from poscollider.pyx: iterate over all pairs of
consecutive-vertex segments `(p[i],p[i+1])` x `(q[j],q[j+1])`,
`i < len1 - 1`, `j < len2 - 1`, and report the first intersecting pair. -/
def polygons_collide (p q : List (ℚ × ℚ)) : Bool :=
  (List.range (p.length - 1)).any fun i =>
    (List.range (q.length - 1)).any fun j =>
      segments_intersect (p.getD i (0, 0)) (p.getD (i + 1) (0, 0))
                         (q.getD j (0, 0)) (q.getD (j + 1) (0, 0))

/-- `_bounding_boxes_collide` from poscollider.pyx: reject if any of the
four strict comparisons between the polygons' axis-aligned bounding boxes
holds, else report a (potential) collision. -/
def bounding_boxes_collide (p q : List (ℚ × ℚ)) : Bool :=
  if c_max (p.map Prod.fst) < c_min (q.map Prod.fst) then false
  else if c_max (p.map Prod.snd) < c_min (q.map Prod.snd) then false
  else if c_max (q.map Prod.fst) < c_min (p.map Prod.fst) then false
  else if c_max (q.map Prod.snd) < c_min (p.map Prod.snd) then false
  else true

/-- `PosPoly.collides_with` from poscollider.pyx: bounding-box pre-check
followed by the segment-intersection polygon overlap test. -/
def collides_with (p q : List (ℚ × ℚ)) : Bool :=
  if bounding_boxes_collide p q then polygons_collide p q else false

/-- Disjointness of the axis-aligned bounding boxes of two polygons, in the
sense of the bounding-box rejection of `_bounding_boxes_collide`. -/
def bb_disjoint (p q : List (ℚ × ℚ)) : Prop :=
  c_max (p.map Prod.fst) < c_min (q.map Prod.fst) ∨
  c_max (p.map Prod.snd) < c_min (q.map Prod.snd) ∨
  c_max (q.map Prod.fst) < c_min (p.map Prod.fst) ∨
  c_max (q.map Prod.snd) < c_min (p.map Prod.snd)

instance (p q : List (ℚ × ℚ)) : Decidable (bb_disjoint p q) := by
  unfold bb_disjoint; infer_instance

lemma bounding_boxes_collide_eq (p q : List (ℚ × ℚ)) :
    bounding_boxes_collide p q = !(decide (bb_disjoint p q)) := by
  unfold bounding_boxes_collide
  split_ifs <;> simp_all [bb_disjoint]

lemma polygons_collide_iff (p q : List (ℚ × ℚ)) :
    polygons_collide p q = true ↔
      ∃ i j, i + 1 < p.length ∧ j + 1 < q.length ∧
        segments_intersect (p.getD i (0, 0)) (p.getD (i + 1) (0, 0))
                           (q.getD j (0, 0)) (q.getD (j + 1) (0, 0)) = true := by
  unfold polygons_collide
  simp only [List.any_eq_true, List.mem_range]
  constructor
  · rintro ⟨i, hi, j, hj, h⟩
    exact ⟨i, j, by omega, by omega, h⟩
  · rintro ⟨i, j, hi, hj, h⟩
    exact ⟨i, by omega, j, by omega, h⟩

/-- C1: `collides_with(A,B)` returns false whenever the axis-aligned
bounding boxes of A and B are disjoint; otherwise it returns true iff some
pair of consecutive-vertex segments (one from A, one from B) intersects,
where a parallel pair (`det = 0`) never counts and a non-parallel pair
counts iff the parameters `s`, `t` of `_segments_intersect` both lie in
`[0, 1]`. -/
theorem collides_with_spec (p q : List (ℚ × ℚ)) :
    (bb_disjoint p q → collides_with p q = false) ∧
    (¬ bb_disjoint p q →
      (collides_with p q = true ↔
        ∃ i j, i + 1 < p.length ∧ j + 1 < q.length ∧
          segments_intersect (p.getD i (0, 0)) (p.getD (i + 1) (0, 0))
                             (q.getD j (0, 0)) (q.getD (j + 1) (0, 0)) = true)) := by
  constructor
  · intro hdisj
    unfold collides_with
    rw [bounding_boxes_collide_eq, decide_eq_true hdisj]
    rfl
  · intro hdisj
    unfold collides_with
    rw [bounding_boxes_collide_eq, decide_eq_false hdisj]
    simpa using polygons_collide_iff p q

/-- Witness for C1: a concrete disjoint pair is rejected, and a concrete
overlapping pair is detected through an explicit intersecting segment pair. -/
theorem collides_with_spec_witness :
    collides_with [(0, 0), (1, 0), (0, 1)] [(5, 5), (6, 5), (5, 6)] = false ∧
    collides_with [(0, 0), (2, 0), (0, 2)] [(1, -1), (1, 3), (3, 1)] = true :=
  ⟨(collides_with_spec [(0, 0), (1, 0), (0, 1)] [(5, 5), (6, 5), (5, 6)]).1 (by decide),
   ((collides_with_spec [(0, 0), (2, 0), (0, 2)] [(1, -1), (1, 3), (3, 1)]).2
      (by decide)).mpr ⟨0, 0, by decide, by decide, by decide⟩⟩

/-! ## Reflexivity and symmetry of the overlap test -/

lemma le_foldl_max : ∀ (t : List ℚ) (a : ℚ), a ≤ t.foldl max a
  | [], a => le_refl a
  | x :: t, a => le_trans (le_max_left a x) (le_foldl_max t (max a x))

lemma foldl_min_le : ∀ (t : List ℚ) (a : ℚ), t.foldl min a ≤ a
  | [], a => le_refl a
  | x :: t, a => le_trans (foldl_min_le t (min a x)) (min_le_left a x)

lemma c_min_le_c_max (l : List ℚ) (h : l ≠ []) : c_min l ≤ c_max l := by
  cases l with
  | nil => exact absurd rfl h
  | cons x t => exact le_trans (foldl_min_le t x) (le_foldl_max t x)

lemma bounding_boxes_collide_self (p : List (ℚ × ℚ)) (h : p ≠ []) :
    bounding_boxes_collide p p = true := by
  have hm : p.map Prod.fst ≠ [] := by simpa using h
  have hm2 : p.map Prod.snd ≠ [] := by simpa using h
  have hx : ¬ (c_max (p.map Prod.fst) < c_min (p.map Prod.fst)) :=
    not_lt.mpr (c_min_le_c_max _ hm)
  have hy : ¬ (c_max (p.map Prod.snd) < c_min (p.map Prod.snd)) :=
    not_lt.mpr (c_min_le_c_max _ hm2)
  unfold bounding_boxes_collide
  rw [if_neg hx, if_neg hy, if_neg hx, if_neg hy]

lemma seg_delta_symm (a1 a2 b1 b2 : ℚ × ℚ) :
    seg_delta b1 b2 a1 a2 = - seg_delta a1 a2 b1 b2 := by
  unfold seg_delta; ring

lemma seg_s_symm (a1 a2 b1 b2 : ℚ × ℚ) :
    seg_s b1 b2 a1 a2 = seg_t a1 a2 b1 b2 := by
  unfold seg_s seg_t
  rw [seg_delta_symm]

lemma seg_t_symm (a1 a2 b1 b2 : ℚ × ℚ) :
    seg_t b1 b2 a1 a2 = seg_s a1 a2 b1 b2 := by
  unfold seg_t seg_s
  rw [seg_delta_symm, neg_neg]

lemma segments_intersect_symm (a1 a2 b1 b2 : ℚ × ℚ) :
    segments_intersect b1 b2 a1 a2 = segments_intersect a1 a2 b1 b2 := by
  unfold segments_intersect
  by_cases h : seg_delta a1 a2 b1 b2 = 0
  · rw [if_pos h, if_pos (by rw [seg_delta_symm, h, neg_zero])]
  · rw [if_neg h, if_neg (by rw [seg_delta_symm]; exact neg_ne_zero.mpr h)]
    rw [seg_s_symm a1 a2 b1 b2, seg_t_symm a1 a2 b1 b2]
    exact decide_eq_decide.mpr (by tauto)

lemma polygons_collide_symm (p q : List (ℚ × ℚ)) :
    polygons_collide p q = polygons_collide q p := by
  rw [Bool.eq_iff_iff, polygons_collide_iff, polygons_collide_iff]
  constructor
  · rintro ⟨i, j, hi, hj, h⟩
    exact ⟨j, i, hj, hi, by rw [segments_intersect_symm]; exact h⟩
  · rintro ⟨j, i, hj, hi, h⟩
    exact ⟨i, j, hi, hj, by rw [segments_intersect_symm]; exact h⟩

lemma bb_disjoint_symm (p q : List (ℚ × ℚ)) : bb_disjoint q p ↔ bb_disjoint p q := by
  unfold bb_disjoint; tauto

lemma bounding_boxes_collide_symm (p q : List (ℚ × ℚ)) :
    bounding_boxes_collide p q = bounding_boxes_collide q p := by
  rw [bounding_boxes_collide_eq, bounding_boxes_collide_eq]
  exact congrArg Bool.not (decide_eq_decide.mpr (bb_disjoint_symm q p))

lemma collides_with_symm_aux (p q : List (ℚ × ℚ)) :
    collides_with p q = collides_with q p := by
  unfold collides_with
  rw [bounding_boxes_collide_symm, polygons_collide_symm]

/-- Two consecutive edges of a polygon, sharing interior vertex `b`, count as
intersecting for `_segments_intersect` whenever they are not parallel:
the computed parameters are `s = 0`, `t = 1`. -/
lemma segments_intersect_adjacent (a b c : ℚ × ℚ)
    (h : seg_delta a b b c ≠ 0) : segments_intersect a b b c = true := by
  unfold segments_intersect
  rw [if_neg h]
  have hs : seg_s a b b c = 0 := by
    unfold seg_s
    rw [show (b.1 - a.1) * (b.2 - a.2) + (b.2 - a.2) * (a.1 - b.1) = 0 by ring, zero_div]
  have ht : seg_t a b b c = 1 := by
    unfold seg_t
    rw [show (c.1 - b.1) * (a.2 - b.2) + (c.2 - b.2) * (b.1 - a.1)
          = - seg_delta a b b c by unfold seg_delta; ring]
    exact div_self (neg_ne_zero.mpr h)
  rw [hs, ht]
  decide

/-- A polygon is closed when its last point equals its first. -/
def isClosed (p : List (ℚ × ℚ)) : Prop := p.head? = p.getLast?

instance (p : List (ℚ × ℚ)) : Decidable (isClosed p) := by
  unfold isClosed; infer_instance

/-- C7: the overlap test is reflexive on non-degenerate closed polygons
(some pair of adjacent edges is non-parallel) and symmetric on all pairs. -/
theorem collides_with_refl_symm :
    (∀ p : List (ℚ × ℚ), isClosed p →
      (∃ i, i + 2 < p.length ∧
        seg_delta (p.getD i (0, 0)) (p.getD (i + 1) (0, 0))
                  (p.getD (i + 1) (0, 0)) (p.getD (i + 2) (0, 0)) ≠ 0) →
      collides_with p p = true) ∧
    (∀ p q : List (ℚ × ℚ), collides_with p q = collides_with q p) := by
  constructor
  · rintro p _ ⟨i, hi, hdet⟩
    have hne : p ≠ [] := by
      intro h; rw [h] at hi; simp at hi
    have hpoly : polygons_collide p p = true :=
      (polygons_collide_iff p p).mpr
        ⟨i, i + 1, by omega, by omega, segments_intersect_adjacent _ _ _ hdet⟩
    unfold collides_with
    rw [bounding_boxes_collide_self p hne, if_pos rfl]
    exact hpoly
  · exact collides_with_symm_aux

/-- Concrete closed triangle used in witnesses. -/
def triPoly : List (ℚ × ℚ) := [(0, 0), (1, 0), (1, 1), (0, 0)]

/-- Witness for C7: the concrete closed triangle overlaps itself. -/
theorem collides_with_refl_symm_witness : collides_with triPoly triPoly = true :=
  collides_with_refl_symm.1 triPoly (by decide) ⟨0, by decide, by decide⟩

/-! ## Polygon construction -/

/-- The state of a `PosPoly` object right after `PosPoly.__cinit__` returns
(normal usage path, `allocation` left at its default).  On a length mismatch
between the two coordinate arrays the constructor prints an error message and
returns early: the object's buffers are never filled and `n_pts` keeps its
zero initial value.  `errorPrinted` records whether the mismatch message was
printed. -/
structure CinitResult where
  x : List ℚ
  y : List ℚ
  n_pts : ℕ
  errorPrinted : Bool
  deriving DecidableEq

/-- `PosPoly.__cinit__` from poscollider.pyx (normal usage path): when
`close_polygon` is true, one extra slot is allocated and a copy of the first
point is written after the input points, unconditionally. -/
def posPoly_cinit (xs ys : List ℚ) (close_polygon : Bool) : CinitResult :=
  if xs.length ≠ ys.length then
    { x := [], y := [], n_pts := 0, errorPrinted := true }
  else
    let extra : ℕ := if close_polygon then 1 else 0
    { x := xs ++ (if close_polygon then [xs.getD 0 0] else []),
      y := ys ++ (if close_polygon then [ys.getD 0 0] else []),
      n_pts := xs.length + extra,
      errorPrinted := false }

/-- Modelled from the spec: the construction result demanded by the
specification's error contract, which requires a shape mismatch to surface
a `ShapeMismatch` failure to the caller instead of a polygon object. -/
inductive SpecPolyResult where
  | ok (x y : List ℚ) : SpecPolyResult
  | shapeMismatchError : SpecPolyResult
  deriving DecidableEq

/-- Modelled from the spec: `new(points, close)` "Fails if the two arrays
differ in length", surfacing `ShapeMismatch`; when `close` is true and the
last point differs from the first, a copy of the first point is appended. -/
def posPoly_new_spec (xs ys : List ℚ) (close : Bool) : SpecPolyResult :=
  if xs.length ≠ ys.length then
    SpecPolyResult.shapeMismatchError
  else if close ∧ (xs.getLastD 0, ys.getLastD 0) ≠ (xs.getD 0 0, ys.getD 0 0) then
    SpecPolyResult.ok (xs ++ [xs.getD 0 0]) (ys ++ [ys.getD 0 0])
  else
    SpecPolyResult.ok xs ys

/-- Counterexample for C3: on mismatched input arrays the constructor in the
code does not fail: it finishes normally and hands the caller a polygon
object with zero points (after printing an error message), whereas the spec
demands a `ShapeMismatch` failure. -/
theorem posPoly_cinit_mismatch_counterexample :
    posPoly_cinit [0, 1] [0] true = ⟨[], [], 0, true⟩ ∧
    posPoly_new_spec [0, 1] [0] true = SpecPolyResult.shapeMismatchError := by
  constructor <;> decide

/-- C3 (amended): on mismatched input array lengths the constructor detects
the mismatch, prints an error message, and returns early with a polygon
object holding no points; no exception or error value reaches the caller. -/
theorem posPoly_cinit_mismatch (xs ys : List ℚ) (close : Bool)
    (h : xs.length ≠ ys.length) :
    posPoly_cinit xs ys close = ⟨[], [], 0, true⟩ := by
  unfold posPoly_cinit
  rw [if_pos h]

/-- Witness for C3 (amended) at a concrete mismatched input. -/
theorem posPoly_cinit_mismatch_witness :
    posPoly_cinit [0, 1, 2] [0, 1] false = ⟨[], [], 0, true⟩ :=
  posPoly_cinit_mismatch [0, 1, 2] [0, 1] false (by decide)

/-- Counterexample for C4: constructing with `close_polygon = true` from a
point list whose last point already equals its first still appends a copy of
the first point: the vertex count grows from 3 to 4 and the closing vertex is
doubled. -/
theorem posPoly_cinit_close_counterexample :
    (posPoly_cinit [0, 1, 0] [0, 1, 0] true).n_pts = 4 ∧
    (posPoly_cinit [0, 1, 0] [0, 1, 0] true).x = [0, 1, 0, 0] ∧
    (posPoly_cinit [0, 1, 0] [0, 1, 0] true).n_pts ≠ [0, 1, 0].length := by
  refine ⟨by decide, by decide, by decide⟩

/-- C4 (amended): with `close_polygon = true` and equal-length non-empty
input arrays, a copy of the first point is always appended, regardless of
whether the given last point equals the first, so the vertex count always
grows by one. -/
theorem posPoly_cinit_close (xs ys : List ℚ)
    (hlen : xs.length = ys.length) (hne : xs ≠ []) :
    posPoly_cinit xs ys true
      = ⟨xs ++ [xs.getD 0 0], ys ++ [ys.getD 0 0], xs.length + 1, false⟩ := by
  unfold posPoly_cinit
  rw [if_neg (by omega)]
  rfl

/-- Witness for C4 (amended): a closed input gains a doubled closing vertex. -/
theorem posPoly_cinit_close_witness :
    posPoly_cinit [0, 2, 0] [0, 3, 0] true = ⟨[0, 2, 0, 0], [0, 3, 0, 0], 4, false⟩ :=
  posPoly_cinit_close [0, 2, 0] [0, 3, 0] (by decide) (by decide)

/-! ## Sweeps -/

/-- The collision-case enumeration `pc.case`: no collision (I), arm-vs-arm
(II), arm-vs-central-body (III), arm-vs-retracted-circle (IV), and the two
fixed pseudo-cases PTL and GFA. -/
inductive Case where
  | I | II | III | IV | PTL | GFA
  deriving DecidableEq

/-- One row of a move table: the source requires all five row-parallel
arrays to have length `nrows`, so a table is modelled as a list of rows. -/
structure Row where
  dT : ℚ
  dP : ℚ
  prepause : ℚ
  move_time : ℚ
  postpause : ℚ
  deriving DecidableEq

/-- A truthy (nonzero) pause appends one sample at the same pose. -/
def pause_step (p : ℚ) (acc : List ℚ × List (ℚ × ℚ)) : List ℚ × List (ℚ × ℚ) :=
  if p ≠ 0 then (acc.1 ++ [p + acc.1.getLastD 0], acc.2 ++ [acc.2.getLastD (0, 0)])
  else acc

/-- A truthy (nonzero) move_time appends one sample displaced by (dT, dP). -/
def move_step (r : Row) (acc : List ℚ × List (ℚ × ℚ)) : List ℚ × List (ℚ × ℚ) :=
  if r.move_time ≠ 0 then
    (acc.1 ++ [r.move_time + acc.1.getLastD 0],
     acc.2 ++ [(r.dT + (acc.2.getLastD (0, 0)).1, r.dP + (acc.2.getLastD (0, 0)).2)])
  else acc

/-- One row of the loop body of `PosSweep.fill_exact`: append a pause
sample for a truthy (nonzero) prepause, a motion sample for a truthy
move_time, and a pause sample for a truthy postpause. -/
def fill_row (acc : List ℚ × List (ℚ × ℚ)) (r : Row) : List ℚ × List (ℚ × ℚ) :=
  pause_step r.postpause (move_step r (pause_step r.prepause acc))

/-- `PosSweep.fill_exact` from poscollider.pyx: the exact continuous-time
trace, starting from `time = [start_time]`, `tp = [init_poslocTP]`. -/
def fill_exact_core (init : ℚ × ℚ) (rows : List Row) (start_time : ℚ) :
    List ℚ × List (ℚ × ℚ) :=
  rows.foldl fill_row ([start_time], [init])

/-- `PosSweep.was_moving` from poscollider.pyx: whether the pose changed in
the period from `step - 1` to `step`; false at step 0 and out of range. -/
def was_moving (tp : List (ℚ × ℚ)) (step : ℕ) : Bool :=
  if step = 0 ∨ tp.length ≤ step then false
  else decide (¬ tp.getD step (0, 0) = tp.getD (step - 1) (0, 0))

/-- Python's `int()` on an exact rational: truncation toward zero. -/
def pyInt (q : ℚ) : ℤ := q.num.tdiv q.den

/-- The inner loop of `PosSweep.quantize`: append `n` samples, each
advancing time by `timestep` and the pose by the per-step distances. -/
def appendQuantSteps (dt stepT stepP : ℚ) :
    ℕ → List ℚ × List (ℚ × ℚ) → List ℚ × List (ℚ × ℚ)
  | 0, acc => acc
  | n + 1, acc =>
      appendQuantSteps dt stepT stepP n
        (acc.1 ++ [acc.1.getLastD 0 + dt],
         acc.2 ++ [((acc.2.getLastD (0, 0)).1 + stepT, (acc.2.getLastD (0, 0)).2 + stepP)])

/-- The `n_steps` of one segment of `PosSweep.quantize`:
`int(time_diff / timestep)`, forced up to 1 when zero while the pose still
changes across the segment. -/
def quantize_nsteps (dt lastT : ℚ) (seg : (ℚ × ℚ) × (ℚ × ℚ) × ℚ) : ℤ :=
  if pyInt ((seg.2.2 - lastT) / dt) = 0
      ∧ ¬ (seg.2.1.1 - seg.1.1 = 0 ∧ seg.2.1.2 - seg.1.2 = 0) then 1
  else pyInt ((seg.2.2 - lastT) / dt)

/-- One segment of the loop body of `PosSweep.quantize`: the segment is the
triple (exact tp at i-1, exact tp at i, exact time at i). -/
def quantize_seg (dt : ℚ) (acc : List ℚ × List (ℚ × ℚ))
    (seg : (ℚ × ℚ) × (ℚ × ℚ) × ℚ) : List ℚ × List (ℚ × ℚ) :=
  if quantize_nsteps dt (acc.1.getLastD 0) seg = 0 then acc
  else
    appendQuantSteps dt
      ((seg.2.1.1 - seg.1.1) / ((quantize_nsteps dt (acc.1.getLastD 0) seg : ℤ) : ℚ))
      ((seg.2.1.2 - seg.1.2) / ((quantize_nsteps dt (acc.1.getLastD 0) seg : ℤ) : ℚ))
      (quantize_nsteps dt (acc.1.getLastD 0) seg).toNat acc

/-- `PosSweep.quantize` from poscollider.pyx, acting on the time and tp
arrays: convert the exact trace to a discrete trace at uniform `timestep`. -/
def quantize_core (dt : ℚ) (time : List ℚ) (tp : List (ℚ × ℚ)) :
    List ℚ × List (ℚ × ℚ) :=
  (tp.zip (tp.tail.zip time.tail)).foldl (quantize_seg dt) ([time.headD 0], [tp.headD (0, 0)])

/-- The `PosSweep` object of poscollider.pyx.  `math.inf` sentinels are
modelled as the top element of `WithTop`; the uninitialized
`collision_idx = None` is an `Option`. -/
structure PosSweep where
  posid : String
  time : List ℚ
  tp : List (ℚ × ℚ)
  was_moving_cached : List Bool
  collision_case : Case
  collision_time : WithTop ℚ
  collision_idx : Option ℕ
  collision_neighbor : String
  frozen_time : WithTop ℚ
  deriving DecidableEq

/-- `PosSweep.__init__` from poscollider.pyx: default field values. -/
def PosSweep.mkDefault (posid : String) : PosSweep :=
  { posid := posid, time := [], tp := [], was_moving_cached := [],
    collision_case := Case.I, collision_time := ⊤, collision_idx := none,
    collision_neighbor := "", frozen_time := ⊤ }

/-- `PosSweep.fill_exact`: fills the time/tp arrays and recomputes the
`was_moving` cache. -/
def PosSweep.fill_exact (s : PosSweep) (init_poslocTP : ℚ × ℚ) (rows : List Row)
    (start_time : ℚ) : PosSweep :=
  let e := fill_exact_core init_poslocTP rows start_time
  { s with time := e.1, tp := e.2,
           was_moving_cached := (List.range e.1.length).map (was_moving e.2) }

/-- `PosSweep.quantize`: replaces the arrays by their quantized versions and
recomputes the `was_moving` cache. -/
def PosSweep.quantize (s : PosSweep) (dt : ℚ) : PosSweep :=
  let q := quantize_core dt s.time s.tp
  { s with time := q.1, tp := q.2,
           was_moving_cached := (List.range q.1.length).map (was_moving q.2) }

/-- `PosSweep.extend` from poscollider.pyx: append
`int((max_time + timestep)/timestep)` zero-motion samples at spacing
`timestep`, starting one step past the current final time, and extend the
`was_moving` cache over the new indices. -/
def PosSweep.extend (s : PosSweep) (timestep max_time : ℚ) : PosSweep :=
  let starttime_extension := s.time.getLastD 0 + timestep
  let n_steps := (pyInt ((max_time + timestep) / timestep)).toNat
  let time2 := s.time ++ (List.range n_steps).map
      (fun k => starttime_extension + (k : ℚ) * timestep)
  let tp2 := s.tp ++ (List.range n_steps).map (fun _ => s.tp.getLastD (0, 0))
  { s with time := time2, tp := tp2,
           was_moving_cached := s.was_moving_cached ++
             (List.range (time2.length - s.was_moving_cached.length)).map
               (fun i => was_moving tp2 (s.was_moving_cached.length + i)) }

/-! ## Scenario 4 -/

/-- A Scenario 4 move-table row: `move_time = max(|dT|/Tdot, |dP|/Pdot)`. -/
def mkScenarioRow (dT dP Tdot Pdot pre post : ℚ) : Row :=
  { dT := dT, dP := dP, prepause := pre,
    move_time := max (|dT| / Tdot) (|dP| / Pdot), postpause := post }

/-- The 5-row move table of Scenario 4. -/
def scenario4_rows : List Row :=
  [mkScenarioRow 10 0 10 5 0 0,
   mkScenarioRow (-20) 0 10 5 1 0,
   mkScenarioRow 0 (-10) 1 5 0 0,
   mkScenarioRow 0 20 10 5 0 0,
   mkScenarioRow 0 (-10) 20 5 0 1]

set_option maxRecDepth 100000 in
/-- C5: for the Scenario 4 table from pose (100,-100) at start time 10,
`fill_exact` yields 1 + #(prepause>0) + #(move_time>0) + #(postpause>0) = 8
samples ending at time 23, and `quantize(0.1)` ends at time 23 with final
pose (90,-100). -/
theorem scenario4_sweep :
    (fill_exact_core (100, -100) scenario4_rows 10).1.length = 8 ∧
    (fill_exact_core (100, -100) scenario4_rows 10).1.length
      = 1 + (scenario4_rows.filter fun r => 0 < r.prepause).length
          + (scenario4_rows.filter fun r => 0 < r.move_time).length
          + (scenario4_rows.filter fun r => 0 < r.postpause).length ∧
    (fill_exact_core (100, -100) scenario4_rows 10).1.getLastD 0 = 23 ∧
    (quantize_core (1/10) (fill_exact_core (100, -100) scenario4_rows 10).1
        (fill_exact_core (100, -100) scenario4_rows 10).2).1.getLastD 0 = 23 ∧
    (quantize_core (1/10) (fill_exact_core (100, -100) scenario4_rows 10).1
        (fill_exact_core (100, -100) scenario4_rows 10).2).2.getLastD (0, 0)
      = (90, -100) := by
  decide

/-- A concrete already-built sweep used to evaluate `PosSweep.extend`. -/
def extendDemoSweep : PosSweep :=
  { PosSweep.mkDefault "demo" with time := [5], tp := [(2, 3)], was_moving_cached := [false] }

/-- C6: evaluation of `PosSweep.extend` at the failing input.  For a sweep
ending at time 5, `extend(dt = 1, max_time = 10)` appends
`int((10 + 1)/1) = 11` zero-motion samples and ends at time 16: the number
of appended samples is computed from `max_time` alone, so the trace does not
stop when it reaches `max_time = 10`, contradicting the documented intent
of extending the sweep *to* `max_time`.  The appended samples are indeed
zero-motion at spacing `dt`. -/
theorem posSweep_extend_code_eval :
    (extendDemoSweep.extend 1 10).time.getLastD 0 = 16 ∧
    ¬ (extendDemoSweep.extend 1 10).time.getLastD 0 = 10 ∧
    (extendDemoSweep.extend 1 10).time
      = [5, 6, 7, 8, 9, 10, 11, 12, 13, 14, 15, 16] ∧
    ∀ p ∈ (extendDemoSweep.extend 1 10).tp, p = (2, 3) := by
  decide

/-! ## Neighbor identification -/

/-- `PosPoly.translated` from poscollider.pyx. -/
def pos_translated (poly : List (ℚ × ℚ)) (dx dy : ℚ) : List (ℚ × ℚ) :=
  poly.map fun pt => (pt.1 + dx, pt.2 + dy)

/-- The collider state consulted by `PosCollider._identify_neighbors`. -/
structure NeighborConfig where
  posids : List String
  x0 : String → ℚ
  y0 : String → ℚ
  Ee_poly : List (ℚ × ℚ)
  use_neighbor_loc_dict : Bool
  deviceloc : String → ℕ
  neighbor_locs : ℕ → List ℕ
  devicelocs : List (ℕ × String)
  fixed_neighbor_keepouts : List (Case × List (ℚ × ℚ))

/-- The positioner-neighbor set computed by `PosCollider._identify_neighbors`
before its size assertion: either the locational strategy (neighbor device
locations intersected with the registered ones) or the geometric strategy
(all other positioners whose translated Ee envelope overlaps this one's). -/
def computed_pos_neighbors (cfg : NeighborConfig) (posid : String) : List String :=
  if cfg.use_neighbor_loc_dict then
    (cfg.neighbor_locs (cfg.deviceloc posid)).filterMap
      fun loc => cfg.devicelocs.lookup loc
  else
    cfg.posids.filter fun q =>
      !(posid == q) && collides_with
        (pos_translated cfg.Ee_poly (cfg.x0 posid) (cfg.y0 posid))
        (pos_translated cfg.Ee_poly (cfg.x0 q) (cfg.y0 q))

/-- The fixed-neighbor cases computed by `PosCollider._identify_neighbors`:
fixed envelopes whose keepout overlaps the translated Ee envelope. -/
def computed_fixed_cases (cfg : NeighborConfig) (posid : String) : List Case :=
  cfg.fixed_neighbor_keepouts.filterMap fun ck =>
    if collides_with (pos_translated cfg.Ee_poly (cfg.x0 posid) (cfg.y0 posid)) ck.2
    then some ck.1 else none

/-- The message of the size assertion in `PosCollider._identify_neighbors`,
which names the offending posid. -/
def neighborErrMsg (posid : String) : String :=
  posid ++ ": num neighbors > 6 is geometrically invalid. This indicates a problem  with calibration values or polygon geometry. Must be fixed before proceeding."

/-- `PosCollider._identify_neighbors`: compute the neighbor sets, then fail
with the assertion message when the positioner-neighbor set exceeds 6. -/
def identify_neighbors (cfg : NeighborConfig) (posid : String) :
    Except String (List String × List Case) :=
  if (computed_pos_neighbors cfg posid).length ≤ 6 then
    Except.ok (computed_pos_neighbors cfg posid, computed_fixed_cases cfg posid)
  else
    Except.error (neighborErrMsg posid)

/-- C8: under either neighbor strategy, a successful neighbor identification
returns at most 6 positioner neighbors, and a computed set exceeding 6 makes
the operation fail with the fatal assertion message, which names the
offending posid; the oversized set is never returned. -/
theorem identify_neighbors_bound (cfg : NeighborConfig) (posid : String) :
    (∀ ns fc, identify_neighbors cfg posid = Except.ok (ns, fc) → ns.length ≤ 6) ∧
    (6 < (computed_pos_neighbors cfg posid).length →
      identify_neighbors cfg posid = Except.error (neighborErrMsg posid) ∧
      ∃ rest, neighborErrMsg posid = posid ++ rest) := by
  constructor
  · intro ns fc h
    unfold identify_neighbors at h
    split_ifs at h with hle
    injection h with h2
    cases h2
    exact hle
  · intro hgt
    refine ⟨?_, ?_⟩
    · unfold identify_neighbors
      rw [if_neg (by omega)]
    · exact ⟨_, rfl⟩

/-- Locational configuration with a single registered neighbor. -/
def neighborCfgOk : NeighborConfig :=
  { posids := ["M00001", "M00002"], x0 := fun _ => 0, y0 := fun _ => 0,
    Ee_poly := [], use_neighbor_loc_dict := true,
    deviceloc := fun _ => 21, neighbor_locs := fun _ => [22],
    devicelocs := [(21, "M00001"), (22, "M00002")],
    fixed_neighbor_keepouts := [] }

/-- Locational configuration whose neighbor-location map yields 7 registered
neighbors for the probed positioner. -/
def neighborCfgBad : NeighborConfig :=
  { posids := [], x0 := fun _ => 0, y0 := fun _ => 0,
    Ee_poly := [], use_neighbor_loc_dict := true,
    deviceloc := fun _ => 0, neighbor_locs := fun _ => [1, 2, 3, 4, 5, 6, 7],
    devicelocs := [(1, "N1"), (2, "N2"), (3, "N3"), (4, "N4"), (5, "N5"), (6, "N6"), (7, "N7")],
    fixed_neighbor_keepouts := [] }

/-- Witness for C8: a concrete in-bound identification succeeds with at most
6 neighbors, and a concrete 7-neighbor configuration fails with the
assertion message. -/
theorem identify_neighbors_bound_witness :
    (["M00002"] : List String).length ≤ 6 ∧
    identify_neighbors neighborCfgBad "M00009" = Except.error (neighborErrMsg "M00009") :=
  ⟨(identify_neighbors_bound neighborCfgOk "M00001").1 ["M00002"] [] (by rfl),
   ((identify_neighbors_bound neighborCfgBad "M00009").2 (by decide)).1⟩

/-! ## Spatial classifier against fixed envelopes -/

/-- `PosCollider.spatial_collision_with_fixed` from poscollider.pyx: when the
positioner has no fixed neighbor cases the method returns case I immediately;
otherwise it places the phi arm (or full-range phi arc), tests it against
each fixed keepout, and returns the first colliding fixed case.  The
placement functions and the keepout map are explicit parameters standing for
`place_phi_arm` / `place_phi_arc` / `fixed_neighbor_keepouts`. -/
def spatial_collision_with_fixed (fixed_cases : List Case)
    (keepouts : Case → List (ℚ × ℚ))
    (place_phi_arm place_phi_arc : (ℚ × ℚ) → List (ℚ × ℚ))
    (poslocTP : ℚ × ℚ) (use_phi_arc : Bool) : Case :=
  if fixed_cases = [] then Case.I
  else
    match fixed_cases.find? fun fc =>
        collides_with
          (if use_phi_arc then place_phi_arc poslocTP else place_phi_arm poslocTP)
          (keepouts fc) with
    | some fc => fc
    | none => Case.I

/-! ## Spacetime driver -/

/-- The sweep handed to the driver loop: `PosSweep(posid)` followed by
`fill_exact(init_poslocTP, table)` (start time 0) and `quantize(timestep)`,
as in `PosCollider.spacetime_collision`. -/
def mkQuantSweep (posid : String) (init : ℚ × ℚ) (rows : List Row) (dt : ℚ) : PosSweep :=
  ((PosSweep.mkDefault posid).fill_exact init rows 0).quantize dt

/-- Collision recording in two-positioner mode: the
`possible_collision_times` dict maps each participant's current sample time
to its step index (the other participant's entry overwrites on a tie);
`collision_time` is the max key and `collision_idx` its dict entry. -/
def record_pospos (s other : PosSweep) (stepS stepO : ℕ) (c : Case) : PosSweep :=
  { s with collision_case := c,
           collision_neighbor := other.posid,
           collision_time :=
             ((max (s.time.getD stepS 0) (other.time.getD stepO 0) : ℚ) : WithTop ℚ),
           collision_idx :=
             some (if max (s.time.getD stepS 0) (other.time.getD stepO 0)
                      = other.time.getD stepO 0 then stepO else stepS) }

/-- Collision recording in fixed mode. -/
def record_fixed (s : PosSweep) (stepS : ℕ) (c : Case) : PosSweep :=
  { s with collision_case := c,
           collision_neighbor := if c = Case.PTL then "PTL" else "GFA",
           collision_time := ((s.time.getD stepS 0 : ℚ) : WithTop ℚ),
           collision_idx := some stepS }

/-- `check_collision_this_loop` in two-positioner mode. -/
def check2 (skip : ℕ) (sA sB : PosSweep) (stepA stepB : ℕ) : Bool :=
  (sA.was_moving_cached.getD stepA false && decide (skip ≤ stepA))
  || (sB.was_moving_cached.getD stepB false && decide (skip ≤ stepB))

/-- The collision case evaluated in one iteration of the two-positioner
driver loop: the spatial classifier is invoked only when a participant was
moving past the skip window. -/
def case2 (collide : (ℚ × ℚ) → (ℚ × ℚ) → Case) (skip : ℕ)
    (sA sB : PosSweep) (stepA stepB : ℕ) : Case :=
  if check2 skip sA sB stepA stepB then
    collide (sA.tp.getD stepA (0, 0)) (sB.tp.getD stepB (0, 0))
  else Case.I

/-- The while-loop of `PosCollider.spacetime_collision` in two-positioner
mode, with the per-iteration state (current steps and steps remaining)
explicit and the number of remaining iterations bounded by `fuel`.
On a non-I case both sweeps record the collision and both
`steps_remaining` entries are zeroed; otherwise each nonzero
`steps_remaining` is decremented and the corresponding step advanced. -/
def loop2 (collide : (ℚ × ℚ) → (ℚ × ℚ) → Case) (skip : ℕ) :
    ℕ → PosSweep → PosSweep → ℕ → ℕ → ℕ → ℕ → PosSweep × PosSweep
  | 0, sA, sB, _, _, _, _ => (sA, sB)
  | fuel + 1, sA, sB, stepA, stepB, remA, remB =>
    if remA = 0 ∧ remB = 0 then (sA, sB)
    else if check2 skip sA sB stepA stepB = true
            ∧ case2 collide skip sA sB stepA stepB ≠ Case.I then
      loop2 collide skip fuel
        (record_pospos sA sB stepA stepB (case2 collide skip sA sB stepA stepB))
        (record_pospos sB sA stepB stepA (case2 collide skip sA sB stepA stepB))
        stepA stepB 0 0
    else
      loop2 collide skip fuel sA sB
        (if remA - 1 ≠ 0 then stepA + 1 else stepA)
        (if remB - 1 ≠ 0 then stepB + 1 else stepB)
        (remA - 1) (remB - 1)

/-- `check_collision_this_loop` in fixed mode. -/
def check1 (skip : ℕ) (sA : PosSweep) (stepA : ℕ) : Bool :=
  sA.was_moving_cached.getD stepA false && decide (skip ≤ stepA)

/-- The collision case evaluated in one iteration of the fixed-mode loop. -/
def case1 (collideFixed : (ℚ × ℚ) → Case) (skip : ℕ) (sA : PosSweep) (stepA : ℕ) : Case :=
  if check1 skip sA stepA then collideFixed (sA.tp.getD stepA (0, 0)) else Case.I

/-- The while-loop of `PosCollider.spacetime_collision` in fixed mode. -/
def loop1 (collideFixed : (ℚ × ℚ) → Case) (skip : ℕ) :
    ℕ → PosSweep → ℕ → ℕ → PosSweep
  | 0, sA, _, _ => sA
  | fuel + 1, sA, stepA, remA =>
    if remA = 0 then sA
    else if check1 skip sA stepA = true ∧ case1 collideFixed skip sA stepA ≠ Case.I then
      loop1 collideFixed skip fuel (record_fixed sA stepA (case1 collideFixed skip sA stepA)) stepA 0
    else
      loop1 collideFixed skip fuel sA
        (if remA - 1 ≠ 0 then stepA + 1 else stepA) (remA - 1)

/-- `PosCollider.spacetime_collision` in two-positioner mode: build and
quantize both sweeps, then walk them in lockstep.  The spatial classifier
`spatial_collision_between_positioners` is the function parameter
`collide`, applied to the two current poses. -/
def spacetime_collision_pospos (collide : (ℚ × ℚ) → (ℚ × ℚ) → Case)
    (posA posB : String) (initA initB : ℚ × ℚ) (tableA tableB : List Row)
    (dt : ℚ) (skip : ℕ) : PosSweep × PosSweep :=
  loop2 collide skip
    ((mkQuantSweep posA initA tableA dt).time.length
      + (mkQuantSweep posB initB tableB dt).time.length)
    (mkQuantSweep posA initA tableA dt) (mkQuantSweep posB initB tableB dt)
    0 0
    (mkQuantSweep posA initA tableA dt).time.length
    (mkQuantSweep posB initB tableB dt).time.length

/-- `PosCollider.spacetime_collision` in fixed mode ("B" arguments absent):
the classifier `spatial_collision_with_fixed(posid, tp)` is the function
parameter `collideFixed`, applied to the current pose. -/
def spacetime_collision_fixed (collideFixed : (ℚ × ℚ) → Case)
    (posA : String) (initA : ℚ × ℚ) (tableA : List Row)
    (dt : ℚ) (skip : ℕ) : PosSweep :=
  loop1 collideFixed skip (mkQuantSweep posA initA tableA dt).time.length
    (mkQuantSweep posA initA tableA dt) 0 (mkQuantSweep posA initA tableA dt).time.length

/-! ## Driver properties: empty fixed-case set and frame conditions -/

lemma loop1_const_I (f : (ℚ × ℚ) → Case) (skip : ℕ) (hf : ∀ tp, f tp = Case.I) :
    ∀ (fuel : ℕ) (sA : PosSweep) (stepA remA : ℕ),
      loop1 f skip fuel sA stepA remA = sA := by
  intro fuel
  induction fuel with
  | zero => intro sA stepA remA; rfl
  | succ n ih =>
      intro sA stepA remA
      have hcase : case1 f skip sA stepA = Case.I := by
        unfold case1
        split_ifs with h
        · exact hf _
        · rfl
      simp only [loop1]
      split_ifs with h1 h2
      · rfl
      · exact absurd hcase h2.2
      all_goals exact ih _ _ _

/-- The collision and freezing fields of a freshly built quantized sweep
keep the `PosSweep.__init__` defaults. -/
lemma mkQuantSweep_defaults (posid : String) (init : ℚ × ℚ) (rows : List Row) (dt : ℚ) :
    (mkQuantSweep posid init rows dt).collision_case = Case.I ∧
    (mkQuantSweep posid init rows dt).collision_time = ⊤ ∧
    (mkQuantSweep posid init rows dt).collision_idx = none ∧
    (mkQuantSweep posid init rows dt).collision_neighbor = "" ∧
    (mkQuantSweep posid init rows dt).frozen_time = ⊤ := by
  unfold mkQuantSweep PosSweep.quantize PosSweep.fill_exact PosSweep.mkDefault
  exact ⟨rfl, rfl, rfl, rfl, rfl⟩

/-- C9: a positioner with an empty set of fixed neighbor cases is classified
as case I for every pose and every `use_phi_arc` value, whatever the
placement functions and keepouts produce; consequently a spacetime check of
that positioner against the fixed envelopes returns its quantized sweep
unchanged, reporting no collision. -/
theorem fixed_empty_no_collision :
    (∀ (keepouts : Case → List (ℚ × ℚ)) (arm arc : (ℚ × ℚ) → List (ℚ × ℚ))
        (tp : ℚ × ℚ) (use_arc : Bool),
      spatial_collision_with_fixed [] keepouts arm arc tp use_arc = Case.I) ∧
    (∀ (keepouts : Case → List (ℚ × ℚ)) (arm arc : (ℚ × ℚ) → List (ℚ × ℚ))
        (posid : String) (init : ℚ × ℚ) (table : List Row) (dt : ℚ) (skip : ℕ),
      spacetime_collision_fixed
          (fun tp => spatial_collision_with_fixed [] keepouts arm arc tp false)
          posid init table dt skip = mkQuantSweep posid init table dt ∧
      (spacetime_collision_fixed
          (fun tp => spatial_collision_with_fixed [] keepouts arm arc tp false)
          posid init table dt skip).collision_case = Case.I ∧
      (spacetime_collision_fixed
          (fun tp => spatial_collision_with_fixed [] keepouts arm arc tp false)
          posid init table dt skip).collision_time = ⊤ ∧
      (spacetime_collision_fixed
          (fun tp => spatial_collision_with_fixed [] keepouts arm arc tp false)
          posid init table dt skip).collision_idx = none ∧
      (spacetime_collision_fixed
          (fun tp => spatial_collision_with_fixed [] keepouts arm arc tp false)
          posid init table dt skip).collision_neighbor = "") := by
  have h1 : ∀ (keepouts : Case → List (ℚ × ℚ)) (arm arc : (ℚ × ℚ) → List (ℚ × ℚ))
      (tp : ℚ × ℚ) (b : Bool),
      spatial_collision_with_fixed [] keepouts arm arc tp b = Case.I := by
    intro keepouts arm arc tp b
    unfold spatial_collision_with_fixed
    rw [if_pos rfl]
  refine ⟨h1, ?_⟩
  intro keepouts arm arc posid init table dt skip
  have h2 : spacetime_collision_fixed
      (fun tp => spatial_collision_with_fixed [] keepouts arm arc tp false)
      posid init table dt skip = mkQuantSweep posid init table dt := by
    unfold spacetime_collision_fixed
    exact loop1_const_I _ skip (fun tp => h1 keepouts arm arc tp false) _ _ _ _
  obtain ⟨d1, d2, d3, d4, -⟩ := mkQuantSweep_defaults posid init table dt
  exact ⟨h2, by rw [h2]; exact d1, by rw [h2]; exact d2,
         by rw [h2]; exact d3, by rw [h2]; exact d4⟩

lemma loop2_zero (collide : (ℚ × ℚ) → (ℚ × ℚ) → Case) (skip : ℕ)
    (fuel : ℕ) (sA sB : PosSweep) (stepA stepB : ℕ) :
    loop2 collide skip fuel sA sB stepA stepB 0 0 = (sA, sB) := by
  cases fuel with
  | zero => rfl
  | succ n => simp [loop2]

lemma loop2_frame (collide : (ℚ × ℚ) → (ℚ × ℚ) → Case) (skip : ℕ) :
    ∀ (fuel : ℕ) (sA sB : PosSweep) (stepA stepB remA remB : ℕ),
      ((loop2 collide skip fuel sA sB stepA stepB remA remB).1.time = sA.time ∧
       (loop2 collide skip fuel sA sB stepA stepB remA remB).1.tp = sA.tp ∧
       (loop2 collide skip fuel sA sB stepA stepB remA remB).1.was_moving_cached
         = sA.was_moving_cached ∧
       (loop2 collide skip fuel sA sB stepA stepB remA remB).1.frozen_time
         = sA.frozen_time) ∧
      ((loop2 collide skip fuel sA sB stepA stepB remA remB).2.time = sB.time ∧
       (loop2 collide skip fuel sA sB stepA stepB remA remB).2.tp = sB.tp ∧
       (loop2 collide skip fuel sA sB stepA stepB remA remB).2.was_moving_cached
         = sB.was_moving_cached ∧
       (loop2 collide skip fuel sA sB stepA stepB remA remB).2.frozen_time
         = sB.frozen_time) := by
  intro fuel
  induction fuel with
  | zero => intros; exact ⟨⟨rfl, rfl, rfl, rfl⟩, ⟨rfl, rfl, rfl, rfl⟩⟩
  | succ n ih =>
      intro sA sB stepA stepB remA remB
      simp only [loop2]
      split_ifs with h1 h2
      · exact ⟨⟨rfl, rfl, rfl, rfl⟩, ⟨rfl, rfl, rfl, rfl⟩⟩
      all_goals exact ih _ _ _ _ _ _

lemma loop2_no_record (collide : (ℚ × ℚ) → (ℚ × ℚ) → Case) (skip : ℕ) :
    ∀ (fuel : ℕ) (sA sB : PosSweep) (stepA stepB remA remB : ℕ),
      ((loop2 collide skip fuel sA sB stepA stepB remA remB).1.collision_idx = none ∨
       (loop2 collide skip fuel sA sB stepA stepB remA remB).2.collision_idx = none) →
      loop2 collide skip fuel sA sB stepA stepB remA remB = (sA, sB) := by
  intro fuel
  induction fuel with
  | zero => intros; rfl
  | succ n ih =>
      intro sA sB stepA stepB remA remB h
      simp only [loop2] at h ⊢
      split_ifs at h ⊢ with h1 h2
      · rfl
      · rw [loop2_zero] at h
        simp [record_pospos] at h
      all_goals exact ih _ _ _ _ _ _ h

lemma loop1_frame (collideFixed : (ℚ × ℚ) → Case) (skip : ℕ) :
    ∀ (fuel : ℕ) (sA : PosSweep) (stepA remA : ℕ),
      (loop1 collideFixed skip fuel sA stepA remA).time = sA.time ∧
      (loop1 collideFixed skip fuel sA stepA remA).tp = sA.tp ∧
      (loop1 collideFixed skip fuel sA stepA remA).was_moving_cached
        = sA.was_moving_cached ∧
      (loop1 collideFixed skip fuel sA stepA remA).frozen_time = sA.frozen_time := by
  intro fuel
  induction fuel with
  | zero => intros; exact ⟨rfl, rfl, rfl, rfl⟩
  | succ n ih =>
      intro sA stepA remA
      simp only [loop1]
      split_ifs with h1 h2
      · exact ⟨rfl, rfl, rfl, rfl⟩
      all_goals exact ih _ _ _

lemma loop1_zero (collideFixed : (ℚ × ℚ) → Case) (skip : ℕ)
    (fuel : ℕ) (sA : PosSweep) (stepA : ℕ) :
    loop1 collideFixed skip fuel sA stepA 0 = sA := by
  cases fuel with
  | zero => rfl
  | succ n => simp [loop1]

lemma loop1_no_record (collideFixed : (ℚ × ℚ) → Case) (skip : ℕ) :
    ∀ (fuel : ℕ) (sA : PosSweep) (stepA remA : ℕ),
      (loop1 collideFixed skip fuel sA stepA remA).collision_idx = none →
      loop1 collideFixed skip fuel sA stepA remA = sA := by
  intro fuel
  induction fuel with
  | zero => intros; rfl
  | succ n ih =>
      intro sA stepA remA h
      simp only [loop1] at h ⊢
      split_ifs at h ⊢ with h1 h2
      · rfl
      · rw [loop1_zero] at h
        simp [record_fixed] at h
      all_goals exact ih _ _ _ h

/-- C10: in both driver modes the returned sweeps keep the full quantized
time, tp, and was_moving arrays produced by `fill_exact` followed by
`quantize` (no truncation at the collision index), `frozen_time` stays at
its infinite default, and when no collision was recorded
(`collision_idx = none`) the remaining collision fields keep their defaults
(case I, infinite time, empty neighbor id). -/
theorem spacetime_collision_frame
    (collide : (ℚ × ℚ) → (ℚ × ℚ) → Case) (collideFixed : (ℚ × ℚ) → Case)
    (posA posB : String) (initA initB : ℚ × ℚ) (tableA tableB : List Row)
    (dt : ℚ) (skip : ℕ) :
    ((spacetime_collision_pospos collide posA posB initA initB tableA tableB dt skip).1.time
        = (mkQuantSweep posA initA tableA dt).time ∧
     (spacetime_collision_pospos collide posA posB initA initB tableA tableB dt skip).1.tp
        = (mkQuantSweep posA initA tableA dt).tp ∧
     (spacetime_collision_pospos collide posA posB initA initB tableA tableB dt skip).1.was_moving_cached
        = (mkQuantSweep posA initA tableA dt).was_moving_cached ∧
     (spacetime_collision_pospos collide posA posB initA initB tableA tableB dt skip).1.frozen_time
        = ⊤) ∧
    ((spacetime_collision_pospos collide posA posB initA initB tableA tableB dt skip).2.time
        = (mkQuantSweep posB initB tableB dt).time ∧
     (spacetime_collision_pospos collide posA posB initA initB tableA tableB dt skip).2.tp
        = (mkQuantSweep posB initB tableB dt).tp ∧
     (spacetime_collision_pospos collide posA posB initA initB tableA tableB dt skip).2.was_moving_cached
        = (mkQuantSweep posB initB tableB dt).was_moving_cached ∧
     (spacetime_collision_pospos collide posA posB initA initB tableA tableB dt skip).2.frozen_time
        = ⊤) ∧
    ((spacetime_collision_pospos collide posA posB initA initB tableA tableB dt skip).1.collision_idx = none →
      (spacetime_collision_pospos collide posA posB initA initB tableA tableB dt skip).1.collision_case = Case.I ∧
      (spacetime_collision_pospos collide posA posB initA initB tableA tableB dt skip).1.collision_time = ⊤ ∧
      (spacetime_collision_pospos collide posA posB initA initB tableA tableB dt skip).1.collision_neighbor = "") ∧
    ((spacetime_collision_pospos collide posA posB initA initB tableA tableB dt skip).2.collision_idx = none →
      (spacetime_collision_pospos collide posA posB initA initB tableA tableB dt skip).2.collision_case = Case.I ∧
      (spacetime_collision_pospos collide posA posB initA initB tableA tableB dt skip).2.collision_time = ⊤ ∧
      (spacetime_collision_pospos collide posA posB initA initB tableA tableB dt skip).2.collision_neighbor = "") ∧
    ((spacetime_collision_fixed collideFixed posA initA tableA dt skip).time
        = (mkQuantSweep posA initA tableA dt).time ∧
     (spacetime_collision_fixed collideFixed posA initA tableA dt skip).tp
        = (mkQuantSweep posA initA tableA dt).tp ∧
     (spacetime_collision_fixed collideFixed posA initA tableA dt skip).was_moving_cached
        = (mkQuantSweep posA initA tableA dt).was_moving_cached ∧
     (spacetime_collision_fixed collideFixed posA initA tableA dt skip).frozen_time = ⊤) ∧
    ((spacetime_collision_fixed collideFixed posA initA tableA dt skip).collision_idx = none →
      (spacetime_collision_fixed collideFixed posA initA tableA dt skip).collision_case = Case.I ∧
      (spacetime_collision_fixed collideFixed posA initA tableA dt skip).collision_time = ⊤ ∧
      (spacetime_collision_fixed collideFixed posA initA tableA dt skip).collision_neighbor = "") := by
  refine ⟨?_, ?_, ?_, ?_, ?_, ?_⟩
  · exact (loop2_frame collide skip _ _ _ _ _ _ _).1
  · exact (loop2_frame collide skip _ _ _ _ _ _ _).2
  · intro h
    have hh := loop2_no_record collide skip _ _ _ _ _ _ _ (Or.inl h)
    have hc : (spacetime_collision_pospos collide posA posB initA initB tableA tableB dt skip).1
        = mkQuantSweep posA initA tableA dt := congrArg Prod.fst hh
    obtain ⟨d1, d2, -, d4, -⟩ := mkQuantSweep_defaults posA initA tableA dt
    exact ⟨by rw [hc]; exact d1, by rw [hc]; exact d2, by rw [hc]; exact d4⟩
  · intro h
    have hh := loop2_no_record collide skip _ _ _ _ _ _ _ (Or.inr h)
    have hc : (spacetime_collision_pospos collide posA posB initA initB tableA tableB dt skip).2
        = mkQuantSweep posB initB tableB dt := congrArg Prod.snd hh
    obtain ⟨d1, d2, -, d4, -⟩ := mkQuantSweep_defaults posB initB tableB dt
    exact ⟨by rw [hc]; exact d1, by rw [hc]; exact d2, by rw [hc]; exact d4⟩
  · exact loop1_frame collideFixed skip _ _ _ _
  · intro h
    have hh : spacetime_collision_fixed collideFixed posA initA tableA dt skip
        = mkQuantSweep posA initA tableA dt := loop1_no_record collideFixed skip _ _ _ _ h
    obtain ⟨d1, d2, -, d4, -⟩ := mkQuantSweep_defaults posA initA tableA dt
    exact ⟨by rw [hh]; exact d1, by rw [hh]; exact d2, by rw [hh]; exact d4⟩

/-- One-row move table used by the C10 witness. -/
def c10Table : List Row :=
  [{ dT := 1, dP := 0, prepause := 0, move_time := 1, postpause := 0 }]

/-- Witness for C10: a concrete run in which no collision is detected keeps
the default collision fields in both modes. -/
theorem spacetime_collision_frame_witness :
    ((spacetime_collision_pospos (fun _ _ => Case.I) "A" "B" (0, 0) (0, 0) c10Table c10Table 1 0).1.collision_case = Case.I ∧
     (spacetime_collision_pospos (fun _ _ => Case.I) "A" "B" (0, 0) (0, 0) c10Table c10Table 1 0).1.collision_time = ⊤ ∧
     (spacetime_collision_pospos (fun _ _ => Case.I) "A" "B" (0, 0) (0, 0) c10Table c10Table 1 0).1.collision_neighbor = "") ∧
    ((spacetime_collision_fixed (fun _ => Case.I) "A" (0, 0) c10Table 1 0).collision_case = Case.I ∧
     (spacetime_collision_fixed (fun _ => Case.I) "A" (0, 0) c10Table 1 0).collision_time = ⊤ ∧
     (spacetime_collision_fixed (fun _ => Case.I) "A" (0, 0) c10Table 1 0).collision_neighbor = "") :=
  ⟨(spacetime_collision_frame (fun _ _ => Case.I) (fun _ => Case.I) "A" "B" (0, 0) (0, 0)
      c10Table c10Table 1 0).2.2.1 (by decide),
   (spacetime_collision_frame (fun _ _ => Case.I) (fun _ => Case.I) "A" "B" (0, 0) (0, 0)
      c10Table c10Table 1 0).2.2.2.2.2 (by decide)⟩

/-! ## Arithmetic structure of quantized time arrays -/

/-- An arithmetic progression of sample times: `t0 + k * dt`, `k < m`. -/
def arithList (t0 dt : ℚ) (m : ℕ) : List ℚ :=
  (List.range m).map fun k : ℕ => t0 + (k : ℚ) * dt

lemma arithList_length (t0 dt : ℚ) (m : ℕ) : (arithList t0 dt m).length = m := by
  simp [arithList]

lemma arithList_succ (t0 dt : ℚ) (m : ℕ) :
    arithList t0 dt (m + 1) = arithList t0 dt m ++ [t0 + m * dt] := by
  unfold arithList
  rw [List.range_succ, List.map_append]
  rfl

lemma arithList_getLastD (t0 dt : ℚ) (m : ℕ) (d : ℚ) :
    (arithList t0 dt (m + 1)).getLastD d = t0 + m * dt := by
  rw [arithList_succ]
  exact List.getLastD_concat _ _ _

lemma arithList_getD (t0 dt d : ℚ) (m k : ℕ) (h : k < m) :
    (arithList t0 dt m).getD k d = t0 + k * dt := by
  simp [arithList, List.getD_eq_getElem?_getD, List.getElem?_map, List.getElem?_range, h]

lemma arithList_get? (t0 dt : ℚ) (m k : ℕ) (h : k < m) :
    (arithList t0 dt m).get? k = some (t0 + k * dt) := by
  simp [arithList, List.get?_eq_getElem?, List.getElem?_map, List.getElem?_range, h]

lemma appendQuantSteps_arith (dt sT sP : ℚ) :
    ∀ (n : ℕ) (t0 : ℚ) (m : ℕ) (tps : List (ℚ × ℚ)),
      (appendQuantSteps dt sT sP n (arithList t0 dt (m + 1), tps)).1
        = arithList t0 dt (m + 1 + n) := by
  intro n
  induction n with
  | zero => intro t0 m tps; rfl
  | succ k ih =>
      intro t0 m tps
      simp only [appendQuantSteps]
      rw [arithList_getLastD]
      rw [show t0 + (m : ℚ) * dt + dt = t0 + ((m + 1 : ℕ) : ℚ) * dt by push_cast; ring]
      rw [← arithList_succ]
      rw [show (m + 1 + 1 : ℕ) = (m + 1) + 1 from rfl]
      rw [ih t0 (m + 1) _]
      exact congrArg (arithList t0 dt) (by omega)

lemma quantize_seg_arith (dt : ℚ) (seg : (ℚ × ℚ) × (ℚ × ℚ) × ℚ)
    (t0 : ℚ) (m : ℕ) (acc : List ℚ × List (ℚ × ℚ))
    (h : acc.1 = arithList t0 dt (m + 1)) :
    ∃ m2, (quantize_seg dt acc seg).1 = arithList t0 dt (m2 + 1) := by
  obtain ⟨accT, accP⟩ := acc
  simp only at h
  subst h
  unfold quantize_seg
  split_ifs with hn
  · exact ⟨m, rfl⟩
  · refine ⟨m + (quantize_nsteps dt ((arithList t0 dt (m + 1), accP).1.getLastD 0) seg).toNat, ?_⟩
    rw [appendQuantSteps_arith]
    exact congrArg (arithList t0 dt) (by omega)

lemma quantize_foldl_arith (dt : ℚ) :
    ∀ (segs : List ((ℚ × ℚ) × (ℚ × ℚ) × ℚ)) (acc : List ℚ × List (ℚ × ℚ))
      (t0 : ℚ) (m : ℕ),
      acc.1 = arithList t0 dt (m + 1) →
      ∃ m2, (segs.foldl (quantize_seg dt) acc).1 = arithList t0 dt (m2 + 1) := by
  intro segs
  induction segs with
  | nil => intro acc t0 m h; exact ⟨m, h⟩
  | cons seg rest ih =>
      intro acc t0 m h
      obtain ⟨m2, h2⟩ := quantize_seg_arith dt seg t0 m acc h
      exact ih (quantize_seg dt acc seg) t0 m2 h2

lemma quantize_core_arith (dt : ℚ) (time : List ℚ) (tp : List (ℚ × ℚ)) :
    ∃ m, (quantize_core dt time tp).1 = arithList (time.headD 0) dt (m + 1) := by
  unfold quantize_core
  apply quantize_foldl_arith dt _ _ (time.headD 0) 0
  show [time.headD 0] = arithList (time.headD 0) dt 1
  simp [arithList, show List.range 1 = [0] from rfl]

/-! ## The exact trace starts at start_time -/

lemma pause_step_time_append (p : ℚ) (acc : List ℚ × List (ℚ × ℚ)) :
    ∃ rest, (pause_step p acc).1 = acc.1 ++ rest := by
  unfold pause_step
  split_ifs
  · exact ⟨_, rfl⟩
  · exact ⟨[], (List.append_nil _).symm⟩

lemma move_step_time_append (r : Row) (acc : List ℚ × List (ℚ × ℚ)) :
    ∃ rest, (move_step r acc).1 = acc.1 ++ rest := by
  unfold move_step
  split_ifs
  · exact ⟨_, rfl⟩
  · exact ⟨[], (List.append_nil _).symm⟩

lemma fill_row_time_append (acc : List ℚ × List (ℚ × ℚ)) (r : Row) :
    ∃ rest, (fill_row acc r).1 = acc.1 ++ rest := by
  unfold fill_row
  obtain ⟨r1, h1⟩ := pause_step_time_append r.prepause acc
  obtain ⟨r2, h2⟩ := move_step_time_append r (pause_step r.prepause acc)
  obtain ⟨r3, h3⟩ := pause_step_time_append r.postpause (move_step r (pause_step r.prepause acc))
  exact ⟨r1 ++ (r2 ++ r3), by rw [h3, h2, h1, List.append_assoc, List.append_assoc]⟩

lemma fill_foldl_time_append :
    ∀ (rows : List Row) (acc : List ℚ × List (ℚ × ℚ)),
      ∃ rest, (rows.foldl fill_row acc).1 = acc.1 ++ rest := by
  intro rows
  induction rows with
  | nil => intro acc; exact ⟨[], (List.append_nil _).symm⟩
  | cons r rest ih =>
      intro acc
      obtain ⟨r1, h1⟩ := fill_row_time_append acc r
      obtain ⟨r2, h2⟩ := ih (fill_row acc r)
      exact ⟨r1 ++ r2, by rw [List.foldl_cons, h2, h1, List.append_assoc]⟩

lemma fill_exact_core_time_head (init : ℚ × ℚ) (rows : List Row) (st : ℚ) :
    (fill_exact_core init rows st).1.headD 0 = st ∧ (fill_exact_core init rows st).1 ≠ [] := by
  obtain ⟨rest, h⟩ := fill_foldl_time_append rows ([st], [init])
  unfold fill_exact_core
  rw [show (([st], [init]) : List ℚ × List (ℚ × ℚ)).1 = [st] from rfl] at h
  rw [h]
  exact ⟨rfl, by simp⟩

/-! ## Quantized sweeps carry arithmetic time arrays -/

lemma mkQuantSweep_arith (posid : String) (init : ℚ × ℚ) (rows : List Row) (dt : ℚ) :
    ∃ m, (mkQuantSweep posid init rows dt).time = arithList 0 dt (m + 1) := by
  have hq : (mkQuantSweep posid init rows dt).time
      = (quantize_core dt (fill_exact_core init rows 0).1 (fill_exact_core init rows 0).2).1 := rfl
  obtain ⟨m, hm⟩ := quantize_core_arith dt (fill_exact_core init rows 0).1
    (fill_exact_core init rows 0).2
  rw [(fill_exact_core_time_head init rows 0).1] at hm
  exact ⟨m, by rw [hq, hm]⟩

lemma mkQuantSweep_time_eq (posid : String) (init : ℚ × ℚ) (rows : List Row) (dt : ℚ) :
    (mkQuantSweep posid init rows dt).time
      = arithList 0 dt (mkQuantSweep posid init rows dt).time.length ∧
    (mkQuantSweep posid init rows dt).time.length ≠ 0 := by
  obtain ⟨m, hm⟩ := mkQuantSweep_arith posid init rows dt
  constructor
  · rw [hm, arithList_length]
  · rw [hm, arithList_length]
    omega

/-! ## Collision recording agreement between the two sweeps -/

lemma loop2_collision (collide : (ℚ × ℚ) → (ℚ × ℚ) → Case) (skip : ℕ)
    (dt : ℚ) (hdt : 0 < dt) :
    ∀ (fuel : ℕ) (sA sB : PosSweep) (stepA stepB remA remB : ℕ),
      sA.time = arithList 0 dt sA.time.length →
      sB.time = arithList 0 dt sB.time.length →
      stepA < sA.time.length → stepA + remA ≤ sA.time.length →
      stepB < sB.time.length → stepB + remB ≤ sB.time.length →
      remA + remB ≤ fuel →
      loop2 collide skip fuel sA sB stepA stepB remA remB = (sA, sB) ∨
      ∃ k t,
        (loop2 collide skip fuel sA sB stepA stepB remA remB).1.collision_idx = some k ∧
        (loop2 collide skip fuel sA sB stepA stepB remA remB).2.collision_idx = some k ∧
        (loop2 collide skip fuel sA sB stepA stepB remA remB).1.collision_time
          = ((t : ℚ) : WithTop ℚ) ∧
        (loop2 collide skip fuel sA sB stepA stepB remA remB).2.collision_time
          = ((t : ℚ) : WithTop ℚ) ∧
        t = (k : ℚ) * dt ∧
        (sA.time.length = sB.time.length → k < sA.time.length) := by
  intro fuel
  induction fuel with
  | zero =>
      intro sA sB stepA stepB remA remB hA hB h1 h2 h3 h4 h5
      left; rfl
  | succ n ih =>
      intro sA sB stepA stepB remA remB hA hB h1 h2 h3 h4 h5
      simp only [loop2]
      split_ifs with hg hr
      · left; rfl
      · -- collision recorded at the current pair of steps
        right
        rw [loop2_zero]
        have hvA : sA.time.getD stepA 0 = (stepA : ℚ) * dt := by
          rw [hA, arithList_getD 0 dt 0 _ stepA h1, zero_add]
        have hvB : sB.time.getD stepB 0 = (stepB : ℚ) * dt := by
          rw [hB, arithList_getD 0 dt 0 _ stepB h3, zero_add]
        rcases lt_trichotomy (sA.time.getD stepA 0) (sB.time.getD stepB 0) with hlt | heq | hlt
        · -- the B sweep holds the later time
          have hmaxAB : max (sA.time.getD stepA 0) (sB.time.getD stepB 0)
              = sB.time.getD stepB 0 := max_eq_right (le_of_lt hlt)
          have hmaxBA : max (sB.time.getD stepB 0) (sA.time.getD stepA 0)
              = sB.time.getD stepB 0 := max_eq_left (le_of_lt hlt)
          refine ⟨stepB, sB.time.getD stepB 0, ?_, ?_, ?_, ?_, hvB, ?_⟩
          · simp only [record_pospos]
            rw [hmaxAB, if_pos rfl]
          · simp only [record_pospos]
            rw [hmaxBA, if_neg (ne_of_gt hlt)]
          · simp only [record_pospos]
            rw [hmaxAB]
          · simp only [record_pospos]
            rw [hmaxBA]
          · intro hlen
            omega
        · -- tie: the two sample times coincide, hence the steps coincide
          have hsteps : stepA = stepB := by
            have h' : (stepA : ℚ) * dt = (stepB : ℚ) * dt := by
              rw [← hvA, ← hvB, heq]
            have h2' := mul_right_cancel₀ (ne_of_gt hdt) h'
            exact_mod_cast h2'
          have hmaxAB : max (sA.time.getD stepA 0) (sB.time.getD stepB 0)
              = sB.time.getD stepB 0 := by rw [heq]; exact max_self _
          have hmaxBA : max (sB.time.getD stepB 0) (sA.time.getD stepA 0)
              = sA.time.getD stepA 0 := by rw [heq]; exact max_self _
          refine ⟨stepB, sB.time.getD stepB 0, ?_, ?_, ?_, ?_, hvB, ?_⟩
          · simp only [record_pospos]
            rw [hmaxAB, if_pos rfl]
          · simp only [record_pospos]
            rw [hmaxBA, if_pos rfl, hsteps]
          · simp only [record_pospos]
            rw [hmaxAB]
          · simp only [record_pospos]
            rw [hmaxBA, heq]
          · intro hlen
            omega
        · -- the A sweep holds the later time
          have hmaxAB : max (sA.time.getD stepA 0) (sB.time.getD stepB 0)
              = sA.time.getD stepA 0 := max_eq_left (le_of_lt hlt)
          have hmaxBA : max (sB.time.getD stepB 0) (sA.time.getD stepA 0)
              = sA.time.getD stepA 0 := max_eq_right (le_of_lt hlt)
          refine ⟨stepA, sA.time.getD stepA 0, ?_, ?_, ?_, ?_, hvA, ?_⟩
          · simp only [record_pospos]
            rw [hmaxAB, if_neg (ne_of_gt hlt)]
          · simp only [record_pospos]
            rw [hmaxBA, if_pos rfl]
          · simp only [record_pospos]
            rw [hmaxAB]
          · simp only [record_pospos]
            rw [hmaxBA]
          · intro hlen
            omega
      all_goals
        refine ih sA sB _ _ _ _ hA hB ?_ ?_ ?_ ?_ ?_ <;> omega

/-- C2 (amended): in two-positioner mode, whenever the driver detects a
collision (`collision_idx = some k` on the first sweep) and the sweeps were
quantized with the (equal) driver timestep, both returned sweeps carry the
same `collision_idx` and the same `collision_time` — the maximum of the two
participants' current sample times, equal to `k * dt` — with no assumption
on the sweeps' sample counts; and when the two quantized sweeps have
equally many samples, on each sweep that index is in range and points at a
sample whose time equals `collision_time`. -/
theorem spacetime_collision_time_agreement
    (collide : (ℚ × ℚ) → (ℚ × ℚ) → Case) (posA posB : String)
    (initA initB : ℚ × ℚ) (tableA tableB : List Row) (dt : ℚ) (skip : ℕ) (k : ℕ)
    (hdt : 0 < dt)
    (hk : (spacetime_collision_pospos collide posA posB initA initB tableA tableB dt skip).1.collision_idx
          = some k) :
    (spacetime_collision_pospos collide posA posB initA initB tableA tableB dt skip).2.collision_idx
      = some k ∧
    (spacetime_collision_pospos collide posA posB initA initB tableA tableB dt skip).1.collision_time
      = (spacetime_collision_pospos collide posA posB initA initB tableA tableB dt skip).2.collision_time ∧
    (spacetime_collision_pospos collide posA posB initA initB tableA tableB dt skip).1.collision_time
      = (((k : ℚ) * dt : ℚ) : WithTop ℚ) ∧
    ((mkQuantSweep posA initA tableA dt).time.length
        = (mkQuantSweep posB initB tableB dt).time.length →
      ∃ t : ℚ,
        (spacetime_collision_pospos collide posA posB initA initB tableA tableB dt skip).1.collision_time
          = ((t : ℚ) : WithTop ℚ) ∧
        (spacetime_collision_pospos collide posA posB initA initB tableA tableB dt skip).1.time.get? k
          = some t ∧
        (spacetime_collision_pospos collide posA posB initA initB tableA tableB dt skip).2.time.get? k
          = some t) := by
  obtain ⟨hAar, hAne⟩ := mkQuantSweep_time_eq posA initA tableA dt
  obtain ⟨hBar, hBne⟩ := mkQuantSweep_time_eq posB initB tableB dt
  have hmain := loop2_collision collide skip dt hdt
      ((mkQuantSweep posA initA tableA dt).time.length
        + (mkQuantSweep posB initB tableB dt).time.length)
      (mkQuantSweep posA initA tableA dt) (mkQuantSweep posB initB tableB dt)
      0 0
      (mkQuantSweep posA initA tableA dt).time.length
      (mkQuantSweep posB initB tableB dt).time.length
      hAar hBar (by omega) (by omega) (by omega) (by omega) (by omega)
  rcases hmain with hsame | ⟨k2, t, hr1, hr2, hr3, hr4, hr5, hr6⟩
  · exfalso
    have hnone : (spacetime_collision_pospos collide posA posB initA initB tableA tableB dt skip).1.collision_idx
        = none := by
      rw [show spacetime_collision_pospos collide posA posB initA initB tableA tableB dt skip
            = (mkQuantSweep posA initA tableA dt, mkQuantSweep posB initB tableB dt) from hsame]
      exact (mkQuantSweep_defaults posA initA tableA dt).2.2.1
    rw [hk] at hnone
    exact Option.noConfusion hnone
  · have hr1' : (spacetime_collision_pospos collide posA posB initA initB tableA tableB dt skip).1.collision_idx
        = some k2 := hr1
    have hkk : k2 = k := Option.some.inj (hr1'.symm.trans hk)
    subst hkk
    have hr3' : (spacetime_collision_pospos collide posA posB initA initB tableA tableB dt skip).1.collision_time
        = ((t : ℚ) : WithTop ℚ) := hr3
    have hr4' : (spacetime_collision_pospos collide posA posB initA initB tableA tableB dt skip).2.collision_time
        = ((t : ℚ) : WithTop ℚ) := hr4
    refine ⟨hr2, ?_, ?_, ?_⟩
    · rw [hr3', hr4']
    · rw [hr3', hr5]
    · intro hlen
      have hkb : k2 < (mkQuantSweep posA initA tableA dt).time.length := hr6 hlen
      have hframeA : (spacetime_collision_pospos collide posA posB initA initB tableA tableB dt skip).1.time
          = (mkQuantSweep posA initA tableA dt).time :=
        (loop2_frame collide skip _ _ _ _ _ _ _).1.1
      have hframeB : (spacetime_collision_pospos collide posA posB initA initB tableA tableB dt skip).2.time
          = (mkQuantSweep posB initB tableB dt).time :=
        (loop2_frame collide skip _ _ _ _ _ _ _).2.1
      have hgetA : (mkQuantSweep posA initA tableA dt).time.get? k2 = some ((k2 : ℚ) * dt) := by
        rw [hAar, arithList_get? 0 dt _ k2 (by omega), zero_add]
      have hgetB : (mkQuantSweep posB initB tableB dt).time.get? k2 = some ((k2 : ℚ) * dt) := by
        rw [hBar, arithList_get? 0 dt _ k2 (by omega), zero_add]
      refine ⟨(k2 : ℚ) * dt, ?_, ?_, ?_⟩
      · rw [hr3', hr5]
      · rw [hframeA]
        exact hgetA
      · rw [hframeB]
        exact hgetB

/-- One-row move table (a single one-second unit move) used by the C2
witness. -/
def witTable : List Row :=
  [{ dT := 1, dP := 0, prepause := 0, move_time := 1, postpause := 0 }]

/-- Witness for C2 (amended): a concrete colliding run with equal-length
sweeps records index 1 and time 1 on both sweeps, and that index points at
the time-1 sample on each sweep. -/
theorem spacetime_collision_time_agreement_witness :
    (spacetime_collision_pospos (fun _ _ => Case.II) "A" "B" (0, 0) (10, 0) witTable witTable 1 0).2.collision_idx
      = some 1 ∧
    (spacetime_collision_pospos (fun _ _ => Case.II) "A" "B" (0, 0) (10, 0) witTable witTable 1 0).1.collision_time
      = (spacetime_collision_pospos (fun _ _ => Case.II) "A" "B" (0, 0) (10, 0) witTable witTable 1 0).2.collision_time ∧
    (spacetime_collision_pospos (fun _ _ => Case.II) "A" "B" (0, 0) (10, 0) witTable witTable 1 0).1.collision_time
      = ((((1 : ℕ) : ℚ) * 1 : ℚ) : WithTop ℚ) ∧
    ∃ t : ℚ,
      (spacetime_collision_pospos (fun _ _ => Case.II) "A" "B" (0, 0) (10, 0) witTable witTable 1 0).1.collision_time
        = ((t : ℚ) : WithTop ℚ) ∧
      (spacetime_collision_pospos (fun _ _ => Case.II) "A" "B" (0, 0) (10, 0) witTable witTable 1 0).1.time.get? 1
        = some t ∧
      (spacetime_collision_pospos (fun _ _ => Case.II) "A" "B" (0, 0) (10, 0) witTable witTable 1 0).2.time.get? 1
        = some t :=
  have h := spacetime_collision_time_agreement (fun _ _ => Case.II) "A" "B" (0, 0) (10, 0)
    witTable witTable 1 0 1 (by decide) (by decide)
  ⟨h.1, h.2.1, h.2.2.1, h.2.2.2 (by decide)⟩

/-- The shorter move table of the C2 counterexample: one 1-second move. -/
def cexTableA : List Row :=
  [{ dT := 1, dP := 0, prepause := 0, move_time := 1, postpause := 0 }]

/-- The longer move table of the C2 counterexample: one 5-second move. -/
def cexTableB : List Row :=
  [{ dT := 5, dP := 0, prepause := 0, move_time := 5, postpause := 0 }]

/-- The classifier of the C2 counterexample: collide once positioner B's
theta reaches 4 degrees. -/
def cexCollide : (ℚ × ℚ) → (ℚ × ℚ) → Case :=
  fun _ b => if 4 ≤ b.1 then Case.II else Case.I

/-- Counterexample for C2 as stated: with equal timesteps but quantized
sweeps of different lengths (2 and 6 samples), the driver detects a
collision after the shorter sweep is exhausted; both sweeps get
`collision_idx = 4` and `collision_time = 4`, but on the shorter sweep
index 4 does not point at any sample, so its `collision_idx` does not point
at a sample whose time equals `collision_time`. -/
theorem spacetime_collision_idx_out_of_range :
    (spacetime_collision_pospos cexCollide "A" "B" (0, 0) (0, 0) cexTableA cexTableB 1 0).1.collision_idx
      = some 4 ∧
    (spacetime_collision_pospos cexCollide "A" "B" (0, 0) (0, 0) cexTableA cexTableB 1 0).2.collision_idx
      = some 4 ∧
    (spacetime_collision_pospos cexCollide "A" "B" (0, 0) (0, 0) cexTableA cexTableB 1 0).1.collision_time
      = ((4 : ℚ) : WithTop ℚ) ∧
    (spacetime_collision_pospos cexCollide "A" "B" (0, 0) (0, 0) cexTableA cexTableB 1 0).2.collision_time
      = ((4 : ℚ) : WithTop ℚ) ∧
    (spacetime_collision_pospos cexCollide "A" "B" (0, 0) (0, 0) cexTableA cexTableB 1 0).1.time.length = 2 ∧
    (spacetime_collision_pospos cexCollide "A" "B" (0, 0) (0, 0) cexTableA cexTableB 1 0).1.time.get? 4
      = none := by
  refine ⟨by decide, by decide, by decide, by decide, by decide, by decide⟩
